import Mathlib

/-!
Shallow embedding of `src/asana.py`: the Remote Client (Python class `API`)
and the Navigator (Python class `Shell`).

Modelling conventions:
- Remote HTTP responses are supplied by a `Remote` oracle; a response whose
  JSON carries an `errors` payload (which `API.__make_req` turns into a raised
  exception) is modelled as `Except.error`.
- Python exceptions are the inductive `Err`; an exception that escapes a
  command handler is recorded in the result as `Outcome.exn` together with the
  shell state at the moment it was raised (`Shell.run` catches only `EOFError`,
  so such an exception terminates the interactive loop).
- Python `list.sort(key=k, reverse=True)` is a stable descending sort; it is
  modelled by `List.insertionSort` with the decidable total preorder
  "greater-or-equal on the key", which is stable, hence produces the same list.
- `self.path = [None, None, None, None]`: slots 1 and 2 are only ever iterated
  over, so they are modelled as lists (the unreachable pre-population `None`
  behaves as the empty list); slot 3 is subscripted (`task["id"]`) where `None`
  raises `TypeError`, so it is modelled as an `Option`.
- The trailing-position append/pop of `self.pwd` is modelled with
  `l ++ [x]` / `List.dropLast`.
-/

structure Workspace where
  id : Nat
  name : String
deriving Repr, DecidableEq

structure Project where
  id : Nat
  name : String
  archived : Bool
  modified_at : Nat
deriving Repr, DecidableEq

structure TaskSummary where
  id : Nat
  name : String
  completed : Bool
  assignee_status : String
deriving Repr, DecidableEq

structure Person where
  name : String
deriving Repr, DecidableEq

structure Story where
  type : String
  created_by : Person
  created_at : String
  text : String
deriving Repr, DecidableEq

structure TaskDetail where
  id : Nat
  name : String
  completed : Bool
  assignee : Option Person
  notes : String
  due_on : Option String
  followers : List Person
  stories : List Story
deriving Repr, DecidableEq

/-- Python exceptions raised by the embedded code. -/
inductive Err where
  | invalidArgument (msg : String)
  | remoteError (msg : String)
  | indexError (msg : String)
  | typeError (msg : String)
  | runtimeError (msg : String)
deriving Repr, DecidableEq

/-- One HTTP request issued through `API.__make_req`, identified by endpoint
and arguments. -/
inductive RemoteCall where
  | getWorkspaces
  | getProjects (workspace_id : Nat)
  | getProjectTasks (project_id : Nat)
  | getWorkspaceTasks (workspace_id : Nat)
  | getTask (task_id : Nat)
  | getStories (task_id : Nat)
  | putTask (task_id : Nat) (completed : Bool)
  | postStory (task_id : Nat) (text : String)
deriving Repr, DecidableEq

/-- The remote service, as an oracle mapping each request to its response:
either the `data` payload, or an error (`errors` payload or transport
failure), which `API.__make_req` raises. -/
structure Remote where
  workspacesResp : Except Err (List Workspace)
  projectsResp : Nat → Except Err (List Project)
  projectTasksResp : Nat → Except Err (List TaskSummary)
  workspaceTasksResp : Nat → Except Err (List TaskSummary)
  taskResp : Nat → Except Err TaskDetail
  storiesResp : Nat → Except Err (List Story)
  putTaskResp : Nat → Bool → Except Err TaskDetail
  postStoryResp : Nat → String → Except Err Story

/-- Descending order on `modified_at`: `a` may precede `b`. Used to model
`projects.sort(key=operator.itemgetter("modified_at"), reverse=True)`. -/
def projGe (a b : Project) : Prop := b.modified_at ≤ a.modified_at

instance : DecidableRel projGe := fun a b => Nat.decLe b.modified_at a.modified_at

instance : IsTotal Project projGe :=
  ⟨fun a b => (Nat.le_total b.modified_at a.modified_at).imp id id⟩

instance : IsTrans Project projGe :=
  ⟨fun _ _ _ h1 h2 => Nat.le_trans h2 h1⟩

/-- Descending order on the boolean `completed` (Python `False < True`,
`reverse=True` puts completed tasks first). Used to model
`tasks.sort(key=operator.itemgetter("completed"), reverse=True)`. -/
def taskCompGe (a b : TaskSummary) : Prop := b.completed = true → a.completed = true

instance : DecidableRel taskCompGe := fun a b => by
  unfold taskCompGe; infer_instance

instance : IsTotal TaskSummary taskCompGe :=
  ⟨fun a b => by
    unfold taskCompGe
    cases h : a.completed <;> cases h2 : b.completed <;> simp [h, h2]⟩

instance : IsTrans TaskSummary taskCompGe :=
  ⟨fun _ _ _ h1 h2 hb => h1 (h2 hb)⟩

/-- `API.workspaces`. -/
def API.workspaces (r : Remote) : Except Err (List Workspace) × List RemoteCall :=
  (r.workspacesResp, [RemoteCall.getWorkspaces])

/-- `API.projects`: GET `workspaces/{id}/projects?archived=False`, then sort by
`modified_at` descending (stable). -/
def API.projects (r : Remote) (workspace_id : Nat) :
    Except Err (List Project) × List RemoteCall :=
  match r.projectsResp workspace_id with
  | Except.error e => (Except.error e, [RemoteCall.getProjects workspace_id])
  | Except.ok projects =>
      (Except.ok (List.insertionSort projGe projects), [RemoteCall.getProjects workspace_id])

/-- The defaultdict insertion `by_status[k].append(t)`. -/
def bucketAppend (f : String → List TaskSummary) (k : String) (t : TaskSummary) :
    String → List TaskSummary :=
  fun s => if s = k then f s ++ [t] else f s

/-- The loop body of `API.tasks` for the workspace-scoped view:
`if t["completed"]: by_status["completed"].append(t) else:
by_status[t["assignee_status"]].append(t)`. -/
def bucketStep (f : String → List TaskSummary) (t : TaskSummary) :
    String → List TaskSummary :=
  if t.completed then bucketAppend f "completed" t
  else bucketAppend f t.assignee_status t

/-- The `by_status` defaultdict after the loop of `API.tasks`, starting from
the empty mapping. -/
def buildBuckets (tasks : List TaskSummary) : String → List TaskSummary :=
  tasks.foldl bucketStep (fun _ => [])

/-- `sorted_tasks` for the workspace-scoped ("me") view:
`by_status["completed"] + by_status["inbox"] + by_status["today"] +
by_status["upcoming"] + by_status["later"]`. -/
def meViewTasks (tasks : List TaskSummary) : List TaskSummary :=
  let by_status := buildBuckets tasks
  by_status "completed" ++ by_status "inbox" ++ by_status "today" ++
    by_status "upcoming" ++ by_status "later"

/-- `API.tasks(project_id=None, workspace_id=None)`. The Python code first
fetches (raising `ValueError` if neither id is given, with `project_id`
checked first), then sorts: completed-first for the project scope, the
five-bucket concatenation for the workspace scope. -/
def API.tasks (r : Remote) (project_id workspace_id : Option Nat) :
    Except Err (List TaskSummary) × List RemoteCall :=
  match project_id with
  | some pid =>
      match r.projectTasksResp pid with
      | Except.error e => (Except.error e, [RemoteCall.getProjectTasks pid])
      | Except.ok tasks =>
          (Except.ok (List.insertionSort taskCompGe tasks),
            [RemoteCall.getProjectTasks pid])
  | none =>
      match workspace_id with
      | some wid =>
          match r.workspaceTasksResp wid with
          | Except.error e => (Except.error e, [RemoteCall.getWorkspaceTasks wid])
          | Except.ok tasks => (Except.ok (meViewTasks tasks), [RemoteCall.getWorkspaceTasks wid])
      | none =>
          (Except.error (Err.invalidArgument "must pass one of project_id, workspace_id"), [])

/-- `API.task(task_id)` (no `put_data`): GET the task, GET its stories, and
merge (`task["stories"] = stories`). -/
def API.task (r : Remote) (task_id : Nat) : Except Err TaskDetail × List RemoteCall :=
  match r.taskResp task_id with
  | Except.error e => (Except.error e, [RemoteCall.getTask task_id])
  | Except.ok t =>
      match r.storiesResp task_id with
      | Except.error e => (Except.error e, [RemoteCall.getTask task_id, RemoteCall.getStories task_id])
      | Except.ok s =>
          (Except.ok { t with stories := s },
            [RemoteCall.getTask task_id, RemoteCall.getStories task_id])

/-- `API.task(task_id, put_data)` with `put_data = {"completed": c}`: PUT the
task, returning whatever record the service echoes back. -/
def API.task_put (r : Remote) (task_id : Nat) (c : Bool) :
    Except Err TaskDetail × List RemoteCall :=
  match r.putTaskResp task_id c with
  | Except.error e => (Except.error e, [RemoteCall.putTask task_id c])
  | Except.ok t => (Except.ok t, [RemoteCall.putTask task_id c])

/-- `API.stories(task_id, post_data)` with `post_data = {"text": text}`. -/
def API.stories (r : Remote) (task_id : Nat) (text : String) :
    Except Err Story × List RemoteCall :=
  match r.postStoryResp task_id text with
  | Except.error e => (Except.error e, [RemoteCall.postStory task_id text])
  | Except.ok s => (Except.ok s, [RemoteCall.postStory task_id text])

/-- An element of `self.pwd`: a workspace dict, the string `"me"`, a project
dict, or a task-summary dict. -/
inductive PathElem where
  | workspace (w : Workspace)
  | me
  | project (p : Project)
  | task (t : TaskSummary)
deriving Repr, DecidableEq

instance : Inhabited PathElem := ⟨PathElem.me⟩

/-- Python subscripting `elem["id"]`: defined for the three dict variants,
a `TypeError` (modelled as `none`) for the string `"me"`. -/
def PathElem.idOf : PathElem → Option Nat
  | PathElem.workspace w => some w.id
  | PathElem.me => none
  | PathElem.project p => some p.id
  | PathElem.task t => some t.id

/-- The Navigator state: `self.pwd` plus the four slots of `self.path`
(`WORKSPACES=0`, `PROJECTS=1`, `TASKS=2`, `TASK=3`). -/
structure ShellState where
  pwd : List PathElem
  path0 : List Workspace
  path1 : List Project
  path2 : List TaskSummary
  path3 : Option TaskDetail
deriving Repr, DecidableEq

/-- How a command handler finished: a normal `return b`, or a Python
exception escaping it uncaught. -/
inductive Outcome where
  | ret (b : Bool)
  | exn (e : Err)
deriving Repr, DecidableEq

/-- The effect of one command: the shell state afterwards (for `Outcome.exn`,
the state at the moment the exception was raised), the messages printed, the
remote calls issued, and how the handler finished. -/
structure CmdResult where
  state : ShellState
  output : List String
  calls : List RemoteCall
  outcome : Outcome
deriving Repr, DecidableEq

/-- `Shell.command_cl(split)`. `arg` is `split[1]` when present (`line.split(" ", 1)`
yields one or two pieces). -/
def Shell.command_cl (r : Remote) (s : ShellState) (arg : Option String) : CmdResult :=
  match arg with
  | none =>
      { state := s, output := ["you must specify a \"directory\" to move to"],
        calls := [], outcome := Outcome.ret false }
  | some a =>
      if a = ".." then
        -- self.pwd.pop(): IndexError on an empty list
        if s.pwd.isEmpty then
          { state := s, output := [], calls := [],
            outcome := Outcome.exn (Err.indexError "pop from empty list") }
        else
          { state := { s with pwd := s.pwd.dropLast }, output := [], calls := [],
            outcome := Outcome.ret true }
      else if s.pwd.length = 0 then
        -- WORKSPACES: first matching workspace wins; for-else reports a miss
        match s.path0.find? (fun w => w.name = a) with
        | none =>
            { state := s, output := ["could not find that workspace"], calls := [],
              outcome := Outcome.ret true }
        | some w =>
            let s1 := { s with pwd := s.pwd ++ [PathElem.workspace w] }
            match API.projects r w.id with
            | (Except.error e, cs) =>
                { state := s1, output := [], calls := cs, outcome := Outcome.exn e }
            | (Except.ok projects, cs) =>
                { state := { s1 with path1 := projects }, output := [], calls := cs,
                  outcome := Outcome.ret true }
      else if s.pwd.length = 1 then
        if a = "me" then
          -- append "me", then fetch with self.pwd[WORKSPACES]["id"]
          let s1 := { s with pwd := s.pwd ++ [PathElem.me] }
          match (s.pwd.headI).idOf with
          | none =>
              { state := s1, output := [], calls := [],
                outcome := Outcome.exn (Err.typeError "string indices must be integers") }
          | some wid =>
              match API.tasks r none (some wid) with
              | (Except.error e, cs) =>
                  { state := s1, output := [], calls := cs, outcome := Outcome.exn e }
              | (Except.ok tasks, cs) =>
                  { state := { s1 with path2 := tasks }, output := [], calls := cs,
                    outcome := Outcome.ret true }
        else
          -- note: this for-loop has no else clause; a miss is silent
          match s.path1.find? (fun p => p.name = a) with
          | none =>
              { state := s, output := [], calls := [], outcome := Outcome.ret true }
          | some p =>
              let s1 := { s with pwd := s.pwd ++ [PathElem.project p] }
              match API.tasks r (some p.id) none with
              | (Except.error e, cs) =>
                  { state := s1, output := [], calls := cs, outcome := Outcome.exn e }
              | (Except.ok tasks, cs) =>
                  { state := { s1 with path2 := tasks }, output := [], calls := cs,
                    outcome := Outcome.ret true }
      else if s.pwd.length = 2 then
        match s.path2.find? (fun t => t.name = a) with
        | none =>
            { state := s, output := ["could not find that task"], calls := [],
              outcome := Outcome.ret true }
        | some t =>
            let s1 := { s with pwd := s.pwd ++ [PathElem.task t] }
            match API.task r t.id with
            | (Except.error e, cs) =>
                { state := s1, output := [], calls := cs, outcome := Outcome.exn e }
            | (Except.ok td, cs) =>
                { state := { s1 with path3 := some td }, output := [], calls := cs,
                  outcome := Outcome.ret true }
      else if s.pwd.length = 3 then
        { state := s, output := [], calls := [], outcome := Outcome.ret false }
      else
        { state := s, output := [], calls := [],
          outcome := Outcome.exn (Err.runtimeError "unhandled working directory depth") }

/-- `Shell.command_done(split)`. -/
def Shell.command_done (r : Remote) (s : ShellState) : CmdResult :=
  if s.pwd.length ≠ 3 then
    { state := s, output := ["must be on a task"], calls := [], outcome := Outcome.ret false }
  else
    match s.path3 with
    | none =>
        -- task["id"] with task = None
        { state := s, output := [], calls := [],
          outcome := Outcome.exn (Err.typeError "NoneType object is not subscriptable") }
    | some task =>
        let stories := task.stories
        match API.task_put r task.id (!task.completed) with
        | (Except.error e, cs) =>
            { state := s, output := [], calls := cs, outcome := Outcome.exn e }
        | (Except.ok t2, cs) =>
            { state := { s with path3 := some { t2 with stories := stories } },
              output := [], calls := cs, outcome := Outcome.ret true }

/-- Python `str.strip()`: drop leading and trailing whitespace. -/
def pyStrip (s : String) : String :=
  String.mk (((s.data.dropWhile Char.isWhitespace).reverse.dropWhile Char.isWhitespace).reverse)

/-- `Shell.command_comment(split)`. `editorText` is the contents of the temp
file after the external editor exits; the code strips it, ignores an empty
result, and otherwise posts it to `self.path[self.TASK]["id"]` and appends the
returned story to the cached story list. -/
def Shell.command_comment (r : Remote) (s : ShellState) (editorText : String) : CmdResult :=
  let comment := pyStrip editorText
  if comment = "" then
    { state := s, output := ["ignoring empty comment"], calls := [], outcome := Outcome.ret false }
  else
    match s.path3 with
    | none =>
        { state := s, output := [], calls := [],
          outcome := Outcome.exn (Err.typeError "NoneType object is not subscriptable") }
    | some task =>
        match API.stories r task.id comment with
        | (Except.error e, cs) =>
            { state := s, output := [], calls := cs, outcome := Outcome.exn e }
        | (Except.ok story, cs) =>
            { state := { s with path3 := some { task with stories := task.stories ++ [story] } },
              output := [], calls := cs, outcome := Outcome.ret true }

/-! Concrete fixtures used by counterexamples and witnesses. -/

def w1 : Workspace := { id := 1, name := "Acme" }

def p1 : Project := { id := 11, name := "Website", archived := false, modified_at := 5 }

def t1 : TaskSummary :=
  { id := 101, name := "Fix header", completed := false, assignee_status := "today" }

def st1 : Story :=
  { type := "comment", created_by := { name := "alice" }, created_at := "2020-01-01", text := "first" }

def st2 : Story :=
  { type := "comment", created_by := { name := "bob" }, created_at := "2020-01-02", text := "second" }

def st3 : Story :=
  { type := "system", created_by := { name := "carol" }, created_at := "2020-01-03", text := "third" }

def td1 : TaskDetail :=
  { id := 101, name := "Fix header", completed := false, assignee := none,
    notes := "", due_on := none, followers := [], stories := [st1, st2, st3] }

/-- A remote service where every request succeeds. -/
def remoteOk : Remote :=
  { workspacesResp := Except.ok [w1]
    projectsResp := fun _ => Except.ok [p1]
    projectTasksResp := fun _ => Except.ok [t1]
    workspaceTasksResp := fun _ => Except.ok [t1]
    taskResp := fun _ => Except.ok td1
    storiesResp := fun _ => Except.ok [st1, st2, st3]
    putTaskResp := fun _ c => Except.ok { td1 with completed := c, stories := [] }
    postStoryResp := fun _ text =>
      Except.ok { type := "comment", created_by := { name := "me" },
                  created_at := "now", text := text } }

/-- A remote service whose project-listing endpoint fails. -/
def remoteProjFail : Remote :=
  { remoteOk with projectsResp := fun _ => Except.error (Err.remoteError "server error") }

/-- The initial Navigator state after `Shell.__init__` with `remoteOk`:
empty `pwd`, workspace listing cached in slot 0. -/
def s0 : ShellState :=
  { pwd := [], path0 := [w1], path1 := [], path2 := [], path3 := none }

/-- A depth-1 state (inside workspace `Acme`) with the project listing cached. -/
def s1dep : ShellState :=
  { pwd := [PathElem.workspace w1], path0 := [w1], path1 := [p1], path2 := [], path3 := none }

/-- A depth-3 state (on task `t1`) with all caches populated. -/
def s3dep : ShellState :=
  { pwd := [PathElem.workspace w1, PathElem.me, PathElem.task t1],
    path0 := [w1], path1 := [p1], path2 := [t1], path3 := some td1 }

/-! Claim theorems. -/

/-- Claim C1, counterexample: calling the task-listing operation with BOTH
`project_id` and `workspace_id` provided does not fail with InvalidArgument —
it performs the project-scoped remote fetch and returns its result, because
the code checks `project_id` first. -/
theorem c1_counterexample :
    API.tasks remoteOk (some 11) (some 1) =
      (Except.ok [t1], [RemoteCall.getProjectTasks 11]) := by
  rfl

/-- Claim C1, amended: providing neither scoping argument fails with
InvalidArgument and performs no remote fetch; providing both does not fail —
`project_id` takes precedence, the call behaves exactly as the project-scoped
call, and a project-task fetch is performed. -/
theorem c1_amended (r : Remote) (pid wid : Nat) :
    API.tasks r none none =
      (Except.error (Err.invalidArgument "must pass one of project_id, workspace_id"), []) ∧
    API.tasks r (some pid) (some wid) = API.tasks r (some pid) none ∧
    (API.tasks r (some pid) (some wid)).2 = [RemoteCall.getProjectTasks pid] := by
  refine ⟨rfl, rfl, ?_⟩
  unfold API.tasks
  cases h : r.projectTasksResp pid <;> simp [h]

/-- Claim C2: evaluation of the code at the failing input. At depth 0 with
workspace `Acme` in the cache, `cl Acme` against a remote whose project
listing fails leaves the workspace pushed onto `pwd` (the append happens
before the fetch) and the exception escapes the handler uncaught —
contradicting the requirement that the Navigator state be unchanged on a
RemoteServiceError. -/
theorem c2_code_evaluation :
    Shell.command_cl remoteProjFail s0 (some "Acme") =
      { state := { s0 with pwd := [PathElem.workspace w1] },
        output := [], calls := [RemoteCall.getProjects 1],
        outcome := Outcome.exn (Err.remoteError "server error") } := by
  rfl

/-- Claim C3: evaluation of the code at the failing input. `cl ..` at depth 0
raises an uncaught IndexError (`self.pwd.pop()` on an empty list) instead of
being a no-op or usage error. -/
theorem c3_code_evaluation :
    Shell.command_cl remoteOk s0 (some "..") =
      { state := s0, output := [], calls := [],
        outcome := Outcome.exn (Err.indexError "pop from empty list") } := by
  rfl

/-- Claim C10: at every depth other than 3, `done` prints `must be on a task`,
issues no remote call, and leaves the whole state unchanged. -/
theorem c10_done_depth_guard (r : Remote) (s : ShellState) (h : s.pwd.length ≠ 3) :
    Shell.command_done r s =
      { state := s, output := ["must be on a task"], calls := [],
        outcome := Outcome.ret false } := by
  unfold Shell.command_done
  rw [if_pos h]

/-- Claim C10, witness: `done` at the initial depth-0 state. -/
theorem c10_done_depth_guard_witness :
    Shell.command_done remoteOk s0 =
      { state := s0, output := ["must be on a task"], calls := [],
        outcome := Outcome.ret false } :=
  c10_done_depth_guard remoteOk s0 (by decide)

/-- Claim C4, counterexample: at depth 1, `cl nope` with no matching project
(and `nope ≠ me`) leaves the state unchanged but prints NO "not found"
message — the depth-1 lookup loop has no else clause, unlike depths 0 and 2. -/
theorem c4_counterexample :
    Shell.command_cl remoteOk s1dep (some "nope") =
      { state := s1dep, output := [], calls := [], outcome := Outcome.ret true } := by
  rfl

/-- Claim C4, amended: a `cl <name>` miss leaves the path, selected entities
and all caches unchanged and issues no remote call at every depth, but the
"not found" message is only reported at depth 0 (`could not find that
workspace`) and depth 2 (`could not find that task`); at depth 1 a non-`me`
miss is silent, and at depth 3 any `cl <name>` is silently refused. -/
theorem c4_amended (r : Remote) (s : ShellState) (a : String) (hdot : a ≠ "..") :
    (s.pwd.length = 0 → s.path0.find? (fun w => w.name = a) = none →
      Shell.command_cl r s (some a) =
        { state := s, output := ["could not find that workspace"], calls := [],
          outcome := Outcome.ret true }) ∧
    (s.pwd.length = 1 → a ≠ "me" → s.path1.find? (fun p => p.name = a) = none →
      Shell.command_cl r s (some a) =
        { state := s, output := [], calls := [], outcome := Outcome.ret true }) ∧
    (s.pwd.length = 2 → s.path2.find? (fun t => t.name = a) = none →
      Shell.command_cl r s (some a) =
        { state := s, output := ["could not find that task"], calls := [],
          outcome := Outcome.ret true }) ∧
    (s.pwd.length = 3 →
      Shell.command_cl r s (some a) =
        { state := s, output := [], calls := [], outcome := Outcome.ret false }) := by
  refine ⟨fun h0 hf => ?_, fun h1 hme hf => ?_, fun h2 hf => ?_, fun h3 => ?_⟩
  · simp [Shell.command_cl, hdot, h0, hf]
  · simp [Shell.command_cl, hdot, h1, hme, hf]
  · simp [Shell.command_cl, hdot, h2, hf]
  · simp [Shell.command_cl, hdot, h3]

/-- Claim C4, witness: a miss at depth 0 reports the message with the state
untouched. -/
theorem c4_amended_witness :
    Shell.command_cl remoteOk s0 (some "ghost") =
      { state := s0, output := ["could not find that workspace"], calls := [],
        outcome := Outcome.ret true } :=
  (c4_amended remoteOk s0 "ghost" (by decide)).1 (by rfl) (by rfl)

/-- Claim C7: at depth 3, `done` issues exactly one mutate call with the
negated `completed` flag and re-merges the response over the cached detail,
keeping the cached `stories` list byte-identical; the merged detail carries
the flipped flag whenever the service echoes the requested value. -/
theorem c7_done_preserves_stories (r : Remote) (s : ShellState) (task resp : TaskDetail)
    (hdepth : s.pwd.length = 3) (hcache : s.path3 = some task)
    (hput : r.putTaskResp task.id (!task.completed) = Except.ok resp)
    (hecho : resp.completed = (!task.completed)) :
    Shell.command_done r s =
      { state := { s with path3 := some { resp with stories := task.stories } },
        output := [], calls := [RemoteCall.putTask task.id (!task.completed)],
        outcome := Outcome.ret true } ∧
    ({ resp with stories := task.stories } : TaskDetail).stories = task.stories ∧
    ({ resp with stories := task.stories } : TaskDetail).completed = (!task.completed) := by
  refine ⟨?_, rfl, hecho⟩
  simp [Shell.command_done, hdepth, hcache, API.task_put, hput]

/-- Claim C7, witness: at the depth-3 fixture (cached detail with 3 stories,
`completed = false`), `done` yields `completed = true` with the same 3
stories. -/
theorem c7_done_preserves_stories_witness :
    Shell.command_done remoteOk s3dep =
      { state := { s3dep with
          path3 := some { { td1 with completed := true, stories := ([] : List Story) } with
            stories := td1.stories } },
        output := [], calls := [RemoteCall.putTask td1.id (!td1.completed)],
        outcome := Outcome.ret true } ∧
    ({ { td1 with completed := true, stories := ([] : List Story) } with
        stories := td1.stories } : TaskDetail).stories = td1.stories ∧
    ({ { td1 with completed := true, stories := ([] : List Story) } with
        stories := td1.stories } : TaskDetail).completed = (!td1.completed) :=
  c7_done_preserves_stories remoteOk s3dep td1
    { td1 with completed := true, stories := [] } rfl rfl rfl rfl

/-- Claim C9: `comment` performs no depth check. For every state and every
editor text whose stripped form is non-empty: whatever value sits in the
depth-3 cache slot is used — if it is a task (current or stale), the
create-story call is issued against the id of that task regardless of the current
depth; if the slot was never populated (`None`), the handler crashes with a
TypeError instead of reporting an error. -/
theorem c9_comment_no_depth_guard (r : Remote) (s : ShellState) (editorText : String)
    (hne : pyStrip editorText ≠ "") :
    (∀ t, s.path3 = some t →
      (Shell.command_comment r s editorText).calls =
        [RemoteCall.postStory t.id (pyStrip editorText)]) ∧
    (s.path3 = none →
      Shell.command_comment r s editorText =
        { state := s, output := [], calls := [],
          outcome := Outcome.exn (Err.typeError "NoneType object is not subscriptable") }) := by
  constructor
  · intro t ht
    simp only [Shell.command_comment, if_neg hne, ht, API.stories]
    cases h : r.postStoryResp t.id (pyStrip editorText) <;> simp [h]
  · intro ht
    simp [Shell.command_comment, if_neg hne, ht]

/-- Claim C9, witness: at the depth-1 fixture (task slot never populated),
a non-empty comment crashes with a TypeError. -/
theorem c9_comment_no_depth_guard_witness :
    Shell.command_comment remoteOk s1dep "hello" =
      { state := s1dep, output := [], calls := [],
        outcome := Outcome.exn (Err.typeError "NoneType object is not subscriptable") } :=
  (c9_comment_no_depth_guard remoteOk s1dep "hello" (by decide)).2 rfl

/-- The defaultdict key a task is appended under by the loop of `API.tasks`. -/
def bucketKeyOf (t : TaskSummary) : String :=
  if t.completed then "completed" else t.assignee_status

theorem bucketStep_apply (f : String → List TaskSummary) (t : TaskSummary) (k : String) :
    bucketStep f t k = if k = bucketKeyOf t then f k ++ [t] else f k := by
  unfold bucketStep bucketKeyOf bucketAppend
  cases h : t.completed <;> simp [h]

theorem foldl_bucketStep (tasks : List TaskSummary) (f : String → List TaskSummary)
    (k : String) :
    tasks.foldl bucketStep f k = f k ++ tasks.filter (fun t => k = bucketKeyOf t) := by
  induction tasks generalizing f with
  | nil => simp
  | cons t ts ih =>
    rw [List.foldl_cons, ih, bucketStep_apply, List.filter_cons]
    by_cases hk : k = bucketKeyOf t
    · simp [hk, List.append_assoc]
    · simp [hk]

theorem buildBuckets_eq (tasks : List TaskSummary) (k : String) :
    buildBuckets tasks k = tasks.filter (fun t => k = bucketKeyOf t) := by
  unfold buildBuckets
  rw [foldl_bucketStep]
  simp

theorem filter_bucket_completed (tasks : List TaskSummary) :
    tasks.filter (fun t => "completed" = bucketKeyOf t) =
      tasks.filter (fun t => t.completed || t.assignee_status == "completed") := by
  apply List.filter_congr
  intro t _
  simp only [bucketKeyOf]
  by_cases h : t.completed = true
  · simp [h]
  · rw [Bool.not_eq_true] at h
    simp only [h, Bool.false_eq_true, if_false, Bool.false_or]
    rw [Bool.eq_iff_iff]
    simp only [decide_eq_true_eq, beq_iff_eq]
    exact eq_comm

theorem filter_bucket_status (tasks : List TaskSummary) (k : String)
    (hk : k ≠ "completed") :
    tasks.filter (fun t => k = bucketKeyOf t) =
      tasks.filter (fun t => !t.completed && t.assignee_status == k) := by
  apply List.filter_congr
  intro t _
  simp only [bucketKeyOf]
  by_cases h : t.completed = true
  · simp [h, hk]
  · rw [Bool.not_eq_true] at h
    simp only [h, Bool.false_eq_true, if_false, Bool.not_false, Bool.true_and]
    rw [Bool.eq_iff_iff]
    simp only [decide_eq_true_eq, beq_iff_eq]
    exact eq_comm

/-- An incomplete task whose `assignee_status` is the literal string
`completed`. -/
def tOdd : TaskSummary :=
  { id := 7, name := "odd", completed := false, assignee_status := "completed" }

/-- Claim C5, counterexample: an incomplete task whose `assignee_status` is
none of inbox/today/upcoming/later is NOT always dropped — with
`assignee_status = "completed"` it lands in the `by_status["completed"]`
bucket and is returned first. -/
theorem c5_counterexample :
    meViewTasks [tOdd] = [tOdd] ∧ tOdd.completed = false ∧
    tOdd.assignee_status ≠ "inbox" ∧ tOdd.assignee_status ≠ "today" ∧
    tOdd.assignee_status ≠ "upcoming" ∧ tOdd.assignee_status ≠ "later" := by
  refine ⟨rfl, rfl, ?_, ?_, ?_, ?_⟩ <;> decide

/-- Claim C5, amended: the "me" view is exactly the concatenation of the five
buckets in the fixed order completed, inbox, today, upcoming, later, each
preserving the relative input order (stable filters); the first bucket
holds the tasks with the `completed` flag plus the incomplete tasks whose
`assignee_status` is the literal string `completed`, so exactly the
incomplete tasks whose `assignee_status` is none of
completed/inbox/today/upcoming/later are silently dropped. -/
theorem c5_amended (tasks : List TaskSummary) :
    meViewTasks tasks =
      tasks.filter (fun t => t.completed || t.assignee_status == "completed") ++
      (tasks.filter (fun t => !t.completed && t.assignee_status == "inbox") ++
      (tasks.filter (fun t => !t.completed && t.assignee_status == "today") ++
      (tasks.filter (fun t => !t.completed && t.assignee_status == "upcoming") ++
      tasks.filter (fun t => !t.completed && t.assignee_status == "later")))) := by
  unfold meViewTasks
  simp only [buildBuckets_eq]
  rw [filter_bucket_completed,
    filter_bucket_status tasks "inbox" (by decide),
    filter_bucket_status tasks "today" (by decide),
    filter_bucket_status tasks "upcoming" (by decide),
    filter_bucket_status tasks "later" (by decide)]
  simp [List.append_assoc]

/-- Claim C6: assuming the service honors the `archived=False` request
parameter (its documented contract), the project listing contains no archived
project and is sorted by `modified_at` descending. -/
theorem c6_projects_filtered_sorted (r : Remote) (wid : Nat) (ps : List Project)
    (hresp : r.projectsResp wid = Except.ok ps)
    (harch : ∀ p ∈ ps, p.archived = false) :
    ∃ out, API.projects r wid = (Except.ok out, [RemoteCall.getProjects wid]) ∧
      (∀ p ∈ out, p.archived = false) ∧
      out.Pairwise (fun a b => b.modified_at ≤ a.modified_at) := by
  refine ⟨List.insertionSort projGe ps, ?_, ?_, List.sorted_insertionSort projGe ps⟩
  · simp [API.projects, hresp]
  · intro p hp
    exact harch p ((List.perm_insertionSort projGe ps).subset hp)

def pA : Project := { id := 21, name := "Alpha", archived := false, modified_at := 3 }

def pB : Project := { id := 22, name := "Beta", archived := false, modified_at := 9 }

/-- A remote service returning two non-archived projects in ascending
`modified_at` order. -/
def remoteTwoProj : Remote :=
  { remoteOk with projectsResp := fun _ => Except.ok [pA, pB] }

/-- Claim C6, witness: two non-archived projects supplied out of order. -/
theorem c6_projects_filtered_sorted_witness :
    ∃ out, API.projects remoteTwoProj 1 = (Except.ok out, [RemoteCall.getProjects 1]) ∧
      (∀ p ∈ out, p.archived = false) ∧
      out.Pairwise (fun a b => b.modified_at ≤ a.modified_at) :=
  c6_projects_filtered_sorted remoteTwoProj 1 [pA, pB] rfl (by decide)

/-- Claim C8: from depth 0, a successful `cl <workspace>` (the name matches a
cached workspace and the command returns normally) followed by `cl ..`
returns to depth 0 with the depth-0 workspace listing cache equal to its
original value. -/
theorem c8_round_trip (r : Remote) (s : ShellState) (nm : String)
    (hdepth : s.pwd = [])
    (hfound : (s.path0.find? (fun w => w.name = nm)).isSome)
    (hok : (Shell.command_cl r s (some nm)).outcome = Outcome.ret true) :
    (Shell.command_cl r (Shell.command_cl r s (some nm)).state (some "..")).state.pwd = [] ∧
    (Shell.command_cl r (Shell.command_cl r s (some nm)).state (some "..")).state.path0 = s.path0 ∧
    (Shell.command_cl r (Shell.command_cl r s (some nm)).state (some "..")).outcome =
      Outcome.ret true := by
  obtain ⟨w, hw⟩ := Option.isSome_iff_exists.mp hfound
  by_cases hdot : nm = ".."
  · exfalso
    subst hdot
    simp [Shell.command_cl, hdepth] at hok
  · rcases hp : API.projects r w.id with ⟨res, cs⟩
    cases res with
    | error e =>
        exfalso
        simp [Shell.command_cl, hdepth, hdot, hw, hp] at hok
    | ok ps =>
        simp [Shell.command_cl, hdepth, hdot, hw, hp]

/-- Claim C8, witness: entering workspace `Acme` and popping back restores
the initial state. -/
theorem c8_round_trip_witness :
    (Shell.command_cl remoteOk (Shell.command_cl remoteOk s0 (some "Acme")).state
        (some "..")).state.pwd = [] ∧
    (Shell.command_cl remoteOk (Shell.command_cl remoteOk s0 (some "Acme")).state
        (some "..")).state.path0 = s0.path0 ∧
    (Shell.command_cl remoteOk (Shell.command_cl remoteOk s0 (some "Acme")).state
        (some "..")).outcome = Outcome.ret true :=
  c8_round_trip remoteOk s0 "Acme" rfl (by decide) (by decide)
